import Mathlib

/-!
Verification of the bounded producer/consumer image-recording pipeline.

The repository contains two implementations of its thread-safe queue:

* the modular one, split into `src/include/ThreadSafeQueue.h` and
  `src/src/ThreadSafeQueue.cpp`, whose `push` returns `bool` and, when the
  queue is full and not finished, removes (evicts) the oldest pending item
  to make room instead of blocking (namespace `ThreadSafeQueue` below);
* the monolithic one inside `concurrent_image_recorder.cpp`, whose `push`
  returns `void` and blocks on the condition variable `cv_full` until the
  queue has room or is finished (namespace `RecorderQueue` below).

Queue state is embedded as the list of pending items (front first), the
`done` flag and the fixed capacity `max_size`.  Blocking calls are embedded
by their wait predicate (the lambda passed to `condition_variable::wait`)
plus the state transformation the body performs once the predicate holds.
Which condition variable each operation waits on and notifies is embedded
explicitly, since the shutdown claims are about exactly that structure.

The producer loop (`src/src/ImageGenerator.cpp`), the writer loop
(`src/src/ImageWriter.cpp`) and the statistics counters set up by
`src/src/main.cpp` are embedded with the wall clock abstracted into the
number of loop iterations it admits, and the item sink
(`writeJPEG_turbo` plus the file-size lookup) abstracted into a function
`ImageData → Option Nat` returning the byte count on success.
-/

/-- Embeds `struct ImageData` (src/include/ImageData.h): an image payload
(opaque here, identified by a number) plus a sequence number. -/
structure ImageData where
  image : Nat
  sequenceNumber : Nat
deriving DecidableEq, Repr

/-- State of a queue instance: pending items front-first, the `done` flag,
and the capacity `max_size` fixed at construction. -/
structure QueueState where
  items : List ImageData
  done : Bool
  max_size : Nat
deriving DecidableEq, Repr

/-- Condition variables of the queue: `cv` (not-empty) and `cv_full`
(space available). -/
inductive CondVar where
  | cv
  | cv_full
deriving DecidableEq, Repr

/-- One `notify_one` or `notify_all` call: its target condition variable and
whether it wakes all waiters (`notify_all`) or one (`notify_one`). -/
structure Notify where
  target : CondVar
  toAll : Bool
deriving DecidableEq, Repr

namespace ThreadSafeQueue

/-- Embeds `ThreadSafeQueue::push` (src/src/ThreadSafeQueue.cpp:19-38).
If the queue is full and not finished, the front item is evicted
(`queue.pop()`); if `done`, the call returns `false` without enqueuing;
otherwise the item is appended and the call returns `true`.  This `push`
contains no wait: it never blocks.  (`queue.pop()` on an empty queue is
undefined behaviour in C++; it is modelled as `List.tail`, which is the
identity on `[]` — reachable only with `max_size = 0`.) -/
def push (s : QueueState) (data : ImageData) : QueueState × Bool :=
  let s1 := if s.max_size ≤ s.items.length ∧ s.done = false then
    { s with items := s.items.tail } else s
  if s1.done then (s1, false)
  else ({ s1 with items := s1.items ++ [data] }, true)

/-- Wait predicate of `ThreadSafeQueue::pop`
(src/src/ThreadSafeQueue.cpp:49): the lambda passed to `cv.wait` —
the body below runs only once this holds. -/
def popWait (s : QueueState) : Prop := s.items ≠ [] ∨ s.done = true

/-- Embeds the body of `ThreadSafeQueue::pop`
(src/src/ThreadSafeQueue.cpp:45-64) after its wait: if the queue is empty
(hence, given `popWait`, finished) it returns `false` (`none`); otherwise
it removes and returns the front item. -/
def pop (s : QueueState) : QueueState × Option ImageData :=
  match s.items with
  | [] => (s, none)
  | x :: xs => ({ s with items := xs }, some x)

/-- Embeds `ThreadSafeQueue::finish` (src/src/ThreadSafeQueue.cpp:70-76):
sets `done`. -/
def finish (s : QueueState) : QueueState := { s with done := true }

/-- Embeds `ThreadSafeQueue::isDone` (src/src/ThreadSafeQueue.cpp:82-84). -/
def isDone (s : QueueState) : Bool := s.done

/-- Embeds `ThreadSafeQueue::size` (src/src/ThreadSafeQueue.cpp:90-93). -/
def size (s : QueueState) : Nat := s.items.length

/-- Notifications performed by `ThreadSafeQueue::finish`
(src/src/ThreadSafeQueue.cpp:75): only `cv.notify_all()`. -/
def finishNotifies : List Notify := [{ target := CondVar.cv, toAll := true }]

/-- Notifications performed by `ThreadSafeQueue::push` on success
(src/src/ThreadSafeQueue.cpp:35): `cv.notify_one()`. -/
def pushNotifies : List Notify := [{ target := CondVar.cv, toAll := false }]

/-- Notifications performed by `ThreadSafeQueue::pop` on success
(src/src/ThreadSafeQueue.cpp:61): `cv_full.notify_one()`. -/
def popNotifies : List Notify := [{ target := CondVar.cv_full, toAll := false }]

/-- The condition variable `ThreadSafeQueue::pop` waits on
(src/src/ThreadSafeQueue.cpp:49); this variant's `push` waits on none. -/
def popWaitsOn : Option CondVar := some CondVar.cv

/-- This variant's `push` contains no `wait` call at all. -/
def pushWaitsOn : Option CondVar := none

/-- `n` successive `pop` calls: the final state and the successfully
popped items in order.  Stops early if a `pop` returns `false`. -/
def popN : QueueState → Nat → QueueState × List ImageData
  | s, 0 => (s, [])
  | s, n + 1 =>
    match pop s with
    | (s1, some x) =>
      let r := popN s1 n
      (r.1, x :: r.2)
    | (s1, none) => (s1, [])

/-- All items delivered when the queue is drained by successive `pop`
calls, one per pending item. -/
def drain (s : QueueState) : List ImageData := (popN s s.items.length).2

/-- States reachable from a freshly constructed queue of capacity `C`
(src/src/ThreadSafeQueue.cpp:12) under any sequence of `push`, `pop` and
`finish` calls (`size` and `isDone` do not change state). -/
inductive Reachable (C : Nat) : QueueState → Prop where
  | init : Reachable C { items := [], done := false, max_size := C }
  | stepPush (s : QueueState) (d : ImageData) :
      Reachable C s → Reachable C (push s d).1
  | stepPop (s : QueueState) :
      Reachable C s → Reachable C (pop s).1
  | stepFinish (s : QueueState) :
      Reachable C s → Reachable C (finish s)

end ThreadSafeQueue

namespace RecorderQueue

/-- Wait predicate of the monolithic `ThreadSafeQueue::push`
(concurrent_image_recorder.cpp:46): the lambda passed to `cv_full.wait` —
the calling thread blocks until the queue has room or is finished. -/
def pushWait (s : QueueState) : Prop :=
  s.items.length < s.max_size ∨ s.done = true

/-- Embeds the body of the monolithic `ThreadSafeQueue::push`
(concurrent_image_recorder.cpp:44-50) after its wait: if `done`, the item
is discarded and the call returns (`void` — there is no Boolean result);
otherwise the item is appended. -/
def push (s : QueueState) (data : ImageData) : QueueState :=
  if s.done then s else { s with items := s.items ++ [data] }

/-- Wait predicate of the monolithic `pop`
(concurrent_image_recorder.cpp:54). -/
def popWait (s : QueueState) : Prop := s.items ≠ [] ∨ s.done = true

/-- Embeds the body of the monolithic `pop`
(concurrent_image_recorder.cpp:52-62), identical to the modular one. -/
def pop (s : QueueState) : QueueState × Option ImageData :=
  match s.items with
  | [] => (s, none)
  | x :: xs => ({ s with items := xs }, some x)

/-- Embeds the monolithic `finish` (concurrent_image_recorder.cpp:67-73):
sets `done`. -/
def finish (s : QueueState) : QueueState := { s with done := true }

/-- Embeds the monolithic `size` (concurrent_image_recorder.cpp:87-90). -/
def size (s : QueueState) : Nat := s.items.length

/-- Notifications performed by the monolithic `finish`
(concurrent_image_recorder.cpp:72): only `cv.notify_all()` — nothing is
notified on `cv_full`. -/
def finishNotifies : List Notify := [{ target := CondVar.cv, toAll := true }]

/-- Notifications performed by the monolithic `pop` on success
(concurrent_image_recorder.cpp:60): `cv_full.notify_one()`. -/
def popNotifies : List Notify := [{ target := CondVar.cv_full, toAll := false }]

/-- The condition variable the monolithic `push` blocks on
(concurrent_image_recorder.cpp:46): `cv_full`. -/
def pushWaitsOn : Option CondVar := some CondVar.cv_full

/-- The condition variable the monolithic `pop` blocks on
(concurrent_image_recorder.cpp:54): `cv`. -/
def popWaitsOn : Option CondVar := some CondVar.cv

/-- States reachable from a freshly constructed queue of capacity `C`
(concurrent_image_recorder.cpp:42) under `push`, `pop` and `finish`,
where `push` and `pop` proceed only once their wait predicates hold. -/
inductive Reachable (C : Nat) : QueueState → Prop where
  | init : Reachable C { items := [], done := false, max_size := C }
  | stepPush (s : QueueState) (d : ImageData) :
      Reachable C s → pushWait s → Reachable C (push s d)
  | stepPop (s : QueueState) :
      Reachable C s → popWait s → Reachable C (pop s).1
  | stepFinish (s : QueueState) :
      Reachable C s → Reachable C (finish s)

end RecorderQueue

/-- Embeds the loop of `imageGeneratorThread`
(src/src/ImageGenerator.cpp:38-91).  The wall-clock loop condition
`now < endTime` is abstracted into `steps`, the number of iterations the
run duration admits; `gen` abstracts `generateRandomImage` (frame index to
payload).  Each iteration generates a frame, pushes it — the Boolean
result of `push` is discarded, exactly as in the source (line 63) — and
increments `frameCount` and `statsImageCount`.  The returned list records
the result of every `push` call, in order.  Note the source never
increments an enqueued-items counter: the definition in the .cpp has no
`imagesEnqueued` parameter, although `src/include/ImageGenerator.h:26-33`
declares one and `src/src/main.cpp:129` passes one. -/
def imageGeneratorLoop (gen : Nat → Nat) :
    Nat → QueueState → Nat → Nat → QueueState × Nat × Nat × List Bool
  | 0, s, frameCount, statsImageCount => (s, frameCount, statsImageCount, [])
  | n + 1, s, frameCount, statsImageCount =>
    let img := gen frameCount
    let r := ThreadSafeQueue.push s { image := img, sequenceNumber := frameCount }
    let rest := imageGeneratorLoop gen n r.1 (frameCount + 1) (statsImageCount + 1)
    (rest.1, rest.2.1, rest.2.2.1, r.2 :: rest.2.2.2)

/-- The statistics counters set up by `src/src/main.cpp:108-111`, all
initialised to 0. -/
structure RunStats where
  statsImageCount : Nat
  imagesEnqueued : Nat
  imagesSaved : Nat
  statsBytesWritten : Nat
deriving DecidableEq, Repr

/-- Embeds the body of one iteration of `imageWriterThread`
(src/src/ImageWriter.cpp:39-66) for a popped item: `sink` abstracts
`writeJPEG_turbo` plus the `file_size` lookup, returning the byte count
on success.  On success the saved count and the byte total are
incremented; on failure an error is printed and the statistics are left
unchanged. -/
def writerBody (sink : ImageData → Option Nat) (data : ImageData)
    (st : RunStats) : RunStats :=
  match sink data with
  | some fileSize =>
    { st with imagesSaved := st.imagesSaved + 1,
              statsBytesWritten := st.statsBytesWritten + fileSize }
  | none => st

/-- Embeds the loop of `imageWriterThread` (src/src/ImageWriter.cpp:39):
`while (queue.pop(data))` — the worker keeps popping and writing and
terminates exactly when `pop` returns `false`.  `fuel` bounds the number
of iterations so the model is total; every claim about the loop is stated
at non-zero fuel. -/
def imageWriterLoop (sink : ImageData → Option Nat) :
    Nat → QueueState → RunStats → QueueState × RunStats
  | 0, s, st => (s, st)
  | fuel + 1, s, st =>
    match ThreadSafeQueue.pop s with
    | (s1, some x) => imageWriterLoop sink fuel s1 (writerBody sink x st)
    | (s1, none) => (s1, st)

/-- One sequential schedule of `src/src/main.cpp`: the generator runs
`steps` iterations on a fresh capacity-100 queue
(src/src/main.cpp:105, default capacity from the header), `main` calls
`finish` (line 149), then a single writer drains the queue.  The
counters start at 0 (lines 108-111); the generator increments only
`statsImageCount` (its definition never touches `imagesEnqueued`), the
writer increments `imagesSaved` and `statsBytesWritten` on success. -/
def pipelineRun (gen : Nat → Nat) (steps fuel : Nat)
    (sink : ImageData → Option Nat) : RunStats :=
  let r := imageGeneratorLoop gen steps
    { items := [], done := false, max_size := 100 } 0 0
  let sf := ThreadSafeQueue.finish r.1
  (imageWriterLoop sink fuel sf
    { statsImageCount := r.2.2.1, imagesEnqueued := 0,
      imagesSaved := 0, statsBytesWritten := 0 }).2

/-- OpenCV depth code for 8-bit unsigned images (`CV_8U`). -/
def CV_8U : Nat := 0

/-- The facts about a `cv::Mat` that `writeJPEG_turbo` inspects:
emptiness, channel count and depth code. -/
structure MatInfo where
  empty : Bool
  channels : Nat
  depth : Nat
deriving DecidableEq, Repr

/-- Observable effects of one `writeJPEG_turbo` call: whether
`tjCompress2` was invoked, whether the output file was created
(the `ofstream` write), and the returned Boolean. -/
structure JpegWriteTrace where
  invokedCompressor : Bool
  createdFile : Bool
  result : Bool
deriving DecidableEq, Repr

/-- The rejection guard of `writeJPEG_turbo`
(src/src/TurboJPEGWriter.cpp:66): empty image, channel count other than
3, or depth other than `CV_8U`. -/
def jpegRejects (image : MatInfo) : Bool :=
  image.empty || image.channels != 3 || image.depth != CV_8U

/-- Embeds `writeJPEG_turbo` (src/src/TurboJPEGWriter.cpp:65-108).
`initOk` abstracts whether `tjInitCompress` returns a handle and
`compressOk` whether `tjCompress2` returns 0; both are outcomes of the
external TurboJPEG library.  The rejected branch returns `false` before
`tjInitCompress` is even called, so neither the compressor runs nor a
file is created. -/
def writeJPEG_turbo (image : MatInfo) (quality : Nat)
    (initOk compressOk : Bool) : JpegWriteTrace :=
  if jpegRejects image then
    { invokedCompressor := false, createdFile := false, result := false }
  else if !initOk then
    { invokedCompressor := false, createdFile := false, result := false }
  else if !compressOk then
    { invokedCompressor := true, createdFile := false, result := false }
  else
    { invokedCompressor := true, createdFile := true, result := true }

/-- Claim C1: the spec says `push` blocks until the queue has room, then
appends and returns `true`, or returns `false` when finished, and "never
removes a previously pending item".  Evaluating the modular
`ThreadSafeQueue::push` on a full, unfinished capacity-1 queue: the call
returns `true` immediately (it contains no wait), and the previously
pending item has been evicted and is gone from the queue. -/
theorem push_evicts_pending_item :
    (ThreadSafeQueue.push
      { items := [{ image := 0, sequenceNumber := 0 }], done := false, max_size := 1 }
      { image := 1, sequenceNumber := 1 }).2 = true ∧
    (ThreadSafeQueue.push
      { items := [{ image := 0, sequenceNumber := 0 }], done := false, max_size := 1 }
      { image := 1, sequenceNumber := 1 }).1.items
        = [{ image := 1, sequenceNumber := 1 }] ∧
    ({ image := 0, sequenceNumber := 0 } : ImageData) ∉
      (ThreadSafeQueue.push
        { items := [{ image := 0, sequenceNumber := 0 }], done := false, max_size := 1 }
        { image := 1, sequenceNumber := 1 }).1.items := by decide

/-- Claim C2: the spec says every item pushed while `finished = false` is
eventually observed by exactly one `pop`, with loss only for pushes after
`finish()`.  Evaluating the modular queue at capacity 1: the first item is
pushed successfully while the queue is open (`push` returns `true`,
`done = false`), yet after a second push it is gone — draining the queue
delivers only the second item, so the first is never observed by any
`pop`. -/
theorem push_full_queue_loses_item :
    (ThreadSafeQueue.push { items := [], done := false, max_size := 1 }
      { image := 0, sequenceNumber := 0 }).2 = true ∧
    (ThreadSafeQueue.push { items := [], done := false, max_size := 1 }
      { image := 0, sequenceNumber := 0 }).1.done = false ∧
    ThreadSafeQueue.drain
      (ThreadSafeQueue.push
        (ThreadSafeQueue.push { items := [], done := false, max_size := 1 }
          { image := 0, sequenceNumber := 0 }).1
        { image := 1, sequenceNumber := 1 }).1
      = [{ image := 1, sequenceNumber := 1 }] ∧
    ({ image := 0, sequenceNumber := 0 } : ImageData) ∉
      ThreadSafeQueue.drain
        (ThreadSafeQueue.push
          (ThreadSafeQueue.push { items := [], done := false, max_size := 1 }
            { image := 0, sequenceNumber := 0 }).1
          { image := 1, sequenceNumber := 1 }).1 := by decide

/-- Claim C4: the spec says `finish()` wakes all threads blocked in `push`
or in `pop`.  In the monolithic implementation, `push` blocks on
`cv_full`, but `finish` performs only `cv.notify_all()`: no notification
it issues targets the condition variable `push` waits on, so a producer
blocked in `push` is not woken by `finish` (only by a later `pop`, whose
`cv_full.notify_one()` wakes a single waiter). -/
theorem finish_does_not_wake_push_waiters :
    RecorderQueue.pushWaitsOn = some CondVar.cv_full ∧
    RecorderQueue.finishNotifies = [{ target := CondVar.cv, toAll := true }] ∧
    RecorderQueue.finishNotifies.all
      (fun n => n.target != CondVar.cv_full) = true ∧
    RecorderQueue.popWaitsOn = some CondVar.cv ∧
    RecorderQueue.popNotifies.all (fun n => !n.toAll) = true := by decide

/-- Claim C6: a `push` issued after `finish()` returns `false` and leaves
the queue — in particular the pending-item count — unchanged.  This holds
for the modular variant (which returns the Boolean) and for the monolithic
variant's state (whose `push` returns `void`). -/
theorem late_push_rejected (s : QueueState) (d : ImageData)
    (hd : s.done = true) :
    (ThreadSafeQueue.push s d).2 = false ∧
    (ThreadSafeQueue.push s d).1 = s ∧
    RecorderQueue.push s d = s := by
  refine ⟨?_, ?_, ?_⟩ <;>
    simp [ThreadSafeQueue.push, RecorderQueue.push, hd]

/-- Witness for `late_push_rejected` at a concrete finished queue holding
one item. -/
theorem late_push_rejected_witness :
    ({ items := [{ image := 7, sequenceNumber := 0 }], done := true,
       max_size := 3 } : QueueState).done = true ∧
    (ThreadSafeQueue.push
      { items := [{ image := 7, sequenceNumber := 0 }], done := true, max_size := 3 }
      { image := 8, sequenceNumber := 1 }).2 = false ∧
    (ThreadSafeQueue.push
      { items := [{ image := 7, sequenceNumber := 0 }], done := true, max_size := 3 }
      { image := 8, sequenceNumber := 1 }).1
      = { items := [{ image := 7, sequenceNumber := 0 }], done := true, max_size := 3 } ∧
    RecorderQueue.push
      { items := [{ image := 7, sequenceNumber := 0 }], done := true, max_size := 3 }
      { image := 8, sequenceNumber := 1 }
      = { items := [{ image := 7, sequenceNumber := 0 }], done := true, max_size := 3 } :=
  ⟨rfl, late_push_rejected _ _ rfl⟩

/-- Draining a queue by as many `pop` calls as it has pending items
delivers exactly those items in FIFO order and empties the queue,
whatever the `done` flag and capacity. -/
theorem popN_length_eq (l : List ImageData) (d : Bool) (M : Nat) :
    ThreadSafeQueue.popN { items := l, done := d, max_size := M } l.length
      = ({ items := [], done := d, max_size := M }, l) := by
  induction l with
  | nil => rfl
  | cons x xs ih =>
    simp [ThreadSafeQueue.popN, ThreadSafeQueue.pop, ih]

/-- Any number of `pop` calls on an empty queue returns no items and
leaves the state unchanged. -/
theorem popN_empty (d : Bool) (M m : Nat) :
    ThreadSafeQueue.popN { items := [], done := d, max_size := M } m
      = ({ items := [], done := d, max_size := M }, []) := by
  cases m with
  | zero => rfl
  | succ n => rfl

/-- Claim C3: after `finish()` with `K` items pending, exactly `K`
subsequent `pop` calls succeed, delivering those `K` items in FIFO
(insertion) order and leaving an empty finished queue, and any number of
further `pop` calls returns no item (`ok = false`) and leaves the state
fixed, so `pop` keeps failing forever. -/
theorem drain_then_stop (s : QueueState) (K m : Nat)
    (hd : s.done = true) (hK : s.items.length = K) :
    (ThreadSafeQueue.popN s K).2 = s.items ∧
    (ThreadSafeQueue.popN s K).1
      = { items := [], done := true, max_size := s.max_size } ∧
    ThreadSafeQueue.popN (ThreadSafeQueue.popN s K).1 m
      = ({ items := [], done := true, max_size := s.max_size }, []) := by
  obtain ⟨l, d, M⟩ := s
  subst hK
  cases hd
  refine ⟨?_, ?_, ?_⟩
  · exact congrArg Prod.snd (popN_length_eq l true M)
  · exact congrArg Prod.fst (popN_length_eq l true M)
  · rw [congrArg Prod.fst (popN_length_eq l true M)]
    exact popN_empty true M m

/-- Witness for `drain_then_stop`: a finished queue holding two items is
drained by exactly two successful pops in insertion order, after which
three more pops all fail. -/
theorem drain_then_stop_witness :
    (ThreadSafeQueue.popN
      { items := [{ image := 3, sequenceNumber := 0 }, { image := 4, sequenceNumber := 1 }],
        done := true, max_size := 5 } 2).2
      = [{ image := 3, sequenceNumber := 0 }, { image := 4, sequenceNumber := 1 }] ∧
    (ThreadSafeQueue.popN
      { items := [{ image := 3, sequenceNumber := 0 }, { image := 4, sequenceNumber := 1 }],
        done := true, max_size := 5 } 2).1
      = { items := [], done := true, max_size := 5 } ∧
    ThreadSafeQueue.popN
      (ThreadSafeQueue.popN
        { items := [{ image := 3, sequenceNumber := 0 }, { image := 4, sequenceNumber := 1 }],
          done := true, max_size := 5 } 2).1 3
      = ({ items := [], done := true, max_size := 5 }, []) :=
  drain_then_stop _ 2 3 rfl rfl

/-- Claim C7 counterexample: the spec says that when `push` returns
`false` the producer stops generating immediately, with no further
frame-source or `push` calls.  Running the embedded generator loop for
two iterations on an already finished queue: the first `push` returns
`false`, yet the loop still performs a second generate-and-push iteration
(two recorded `push` results, `frameCount` advanced to 2), because the
source discards the return value of `push`. -/
theorem producer_continues_after_failed_push :
    (imageGeneratorLoop (fun n => n) 2
      { items := [], done := true, max_size := 100 } 0 0).2.2.2
      = [false, false] ∧
    (imageGeneratorLoop (fun n => n) 2
      { items := [], done := true, max_size := 100 } 0 0).2.1 = 2 := by decide

/-- Claim C7 amended: the generator loop ignores the result of every
`push` call — it always performs exactly `steps` generate-and-push
iterations, advancing `frameCount` and `statsImageCount` once per
iteration and recording one `push` result per iteration, regardless of
the queue's state. -/
theorem producer_ignores_push_result (gen : Nat → Nat) (steps : Nat)
    (s : QueueState) (fc sc : Nat) :
    (imageGeneratorLoop gen steps s fc sc).2.1 = fc + steps ∧
    (imageGeneratorLoop gen steps s fc sc).2.2.1 = sc + steps ∧
    (imageGeneratorLoop gen steps s fc sc).2.2.2.length = steps := by
  induction steps generalizing s fc sc with
  | zero => simp [imageGeneratorLoop]
  | succ n ih =>
    simp only [imageGeneratorLoop]
    refine ⟨?_, ?_, ?_⟩
    · rw [(ih _ _ _).1]; omega
    · rw [(ih _ _ _).2.1]; omega
    · simp [(ih _ _ _).2.2]

/-- Claim C8: the spec says the counters keep `items enqueued ≥ items
written` at all times.  In a run where the generator produces one item
and a writer drains and successfully writes it, the generated and written
counters reach 1 while the enqueued counter stays 0, because the
generator definition in src/src/ImageGenerator.cpp never increments the
`imagesEnqueued` counter that its own header declares and `main` passes.
So `items enqueued ≥ items written` fails on this run. -/
theorem enqueued_counter_never_incremented :
    (pipelineRun (fun n => n) 1 2 (fun _ => some 10)).statsImageCount = 1 ∧
    (pipelineRun (fun n => n) 1 2 (fun _ => some 10)).imagesSaved = 1 ∧
    (pipelineRun (fun n => n) 1 2 (fun _ => some 10)).imagesEnqueued = 0 ∧
    ¬((pipelineRun (fun n => n) 1 2 (fun _ => some 10)).imagesSaved
        ≤ (pipelineRun (fun n => n) 1 2 (fun _ => some 10)).imagesEnqueued) := by
  decide

/-- One modular `push` preserves the capacity bound when the capacity is
at least 1: eviction keeps a full queue at exactly `C` items, and an
append happens only when the queue is below `C` or is replacing the
evicted front item. -/
theorem push_preserves_capacity (C : Nat) (hC : 1 ≤ C) (s : QueueState)
    (d : ImageData) (hm : s.max_size = C) (hl : s.items.length ≤ C) :
    (ThreadSafeQueue.push s d).1.max_size = C ∧
    (ThreadSafeQueue.push s d).1.items.length ≤ C := by
  obtain ⟨l, dn, M⟩ := s
  simp only at hm hl
  cases dn with
  | true => simp [ThreadSafeQueue.push, hm, hl]
  | false =>
    by_cases hfull : M ≤ l.length
    · have hlen : l.length = C := le_antisymm hl (hm ▸ hfull)
      refine ⟨?_, ?_⟩ <;> simp [ThreadSafeQueue.push, hfull] <;> omega
    · refine ⟨?_, ?_⟩ <;> simp [ThreadSafeQueue.push, hfull] <;> omega

/-- Every state of the modular queue reachable from a fresh queue of
capacity `C ≥ 1` keeps its capacity field and holds at most `C` pending
items. -/
theorem tsq_reachable_inv (C : Nat) (hC : 1 ≤ C) (s : QueueState)
    (h : ThreadSafeQueue.Reachable C s) :
    s.max_size = C ∧ s.items.length ≤ C := by
  induction h with
  | init => exact ⟨rfl, Nat.zero_le C⟩
  | stepPush s d hs ih => exact push_preserves_capacity C hC s d ih.1 ih.2
  | stepPop s hs ih =>
    obtain ⟨l, dn, M⟩ := s
    obtain ⟨hm, hl⟩ := ih
    cases l with
    | nil => exact ⟨hm, hl⟩
    | cons x xs =>
      refine ⟨hm, ?_⟩
      simp at hl
      simp [ThreadSafeQueue.pop]
      omega
  | stepFinish s hs ih =>
    obtain ⟨l, dn, M⟩ := s
    exact ⟨ih.1, ih.2⟩

/-- Every state of the monolithic queue reachable from a fresh queue of
capacity `C` keeps its capacity field and holds at most `C` pending
items: its `push` appends only after its wait predicate grants room. -/
theorem cir_reachable_inv (C : Nat) (s : QueueState)
    (h : RecorderQueue.Reachable C s) :
    s.max_size = C ∧ s.items.length ≤ C := by
  induction h with
  | init => exact ⟨rfl, Nat.zero_le C⟩
  | stepPush s d hs hw ih =>
    obtain ⟨l, dn, M⟩ := s
    obtain ⟨hm, hl⟩ := ih
    simp only at hm hl
    cases dn with
    | true => exact ⟨hm, hl⟩
    | false =>
      have hlt : l.length < M := by
        rcases hw with h | h
        · simpa using h
        · simp at h
      refine ⟨?_, ?_⟩ <;> simp [RecorderQueue.push] <;> omega
  | stepPop s hs hw ih =>
    obtain ⟨l, dn, M⟩ := s
    obtain ⟨hm, hl⟩ := ih
    cases l with
    | nil => exact ⟨hm, hl⟩
    | cons x xs =>
      refine ⟨hm, ?_⟩
      simp at hl
      simp [RecorderQueue.pop]
      omega
  | stepFinish s hs ih =>
    obtain ⟨l, dn, M⟩ := s
    exact ⟨ih.1, ih.2⟩

/-- Claim C5: in both queue implementations, every state reachable from a
fresh queue of capacity `C ≥ 1` under any interleaving of `push`, `pop`,
`finish` and `size` calls holds between 0 and `C` pending items (the
lower bound is inherent to the list model). -/
theorem queue_capacity_invariant (C : Nat) (hC : 1 ≤ C) (s t : QueueState)
    (hs : ThreadSafeQueue.Reachable C s) (ht : RecorderQueue.Reachable C t) :
    s.items.length ≤ C ∧ t.items.length ≤ C :=
  ⟨(tsq_reachable_inv C hC s hs).2, (cir_reachable_inv C t ht).2⟩

/-- Witness for `queue_capacity_invariant`: capacity 2, the modular queue
after one push and the monolithic fresh queue. -/
theorem queue_capacity_invariant_witness :
    (ThreadSafeQueue.push { items := [], done := false, max_size := 2 }
      { image := 9, sequenceNumber := 0 }).1.items.length ≤ 2 ∧
    ({ items := [], done := false, max_size := 2 } : QueueState).items.length ≤ 2 :=
  queue_capacity_invariant 2 (by decide) _ _
    (ThreadSafeQueue.Reachable.stepPush _ _ ThreadSafeQueue.Reachable.init)
    RecorderQueue.Reachable.init

/-- Claim C9: for every popped item, a successful sink write increments
the saved count and the byte total by the reported size; a failed write
leaves the statistics unchanged and the worker continues looping — the
loop ends, handing back the state and statistics, exactly when `pop`
reports the queue empty and finished. -/
theorem worker_continues_after_sink_failure (sink : ImageData → Option Nat)
    (st : RunStats) (s s1 : QueueState) (x : ImageData) (fuel b : Nat) :
    (sink x = some b → writerBody sink x st =
      { st with imagesSaved := st.imagesSaved + 1,
                statsBytesWritten := st.statsBytesWritten + b }) ∧
    (sink x = none → writerBody sink x st = st) ∧
    (ThreadSafeQueue.pop s = (s1, some x) →
      imageWriterLoop sink (fuel + 1) s st
        = imageWriterLoop sink fuel s1 (writerBody sink x st)) ∧
    (ThreadSafeQueue.popWait s → ThreadSafeQueue.pop s = (s1, none) →
      imageWriterLoop sink (fuel + 1) s st = (s1, st)) := by
  refine ⟨?_, ?_, ?_, ?_⟩
  · intro h
    simp [writerBody, h]
  · intro h
    simp [writerBody, h]
  · intro h
    simp only [imageWriterLoop]
    rw [h]
  · intro _ h
    simp only [imageWriterLoop]
    rw [h]

/-- Witness for `worker_continues_after_sink_failure`: a sink that always
succeeds with 10 bytes, a sink that always fails, a pop that delivers the
single pending item of a finished queue, and a pop on the empty finished
queue that ends the loop. -/
theorem worker_continues_after_sink_failure_witness :
    writerBody (fun _ => some 10) { image := 0, sequenceNumber := 0 }
      { statsImageCount := 0, imagesEnqueued := 0, imagesSaved := 0, statsBytesWritten := 0 }
      = { statsImageCount := 0, imagesEnqueued := 0, imagesSaved := 1, statsBytesWritten := 10 } ∧
    writerBody (fun _ => none) { image := 0, sequenceNumber := 0 }
      { statsImageCount := 0, imagesEnqueued := 0, imagesSaved := 0, statsBytesWritten := 0 }
      = { statsImageCount := 0, imagesEnqueued := 0, imagesSaved := 0, statsBytesWritten := 0 } ∧
    imageWriterLoop (fun _ => none) 1
      { items := [{ image := 0, sequenceNumber := 0 }], done := true, max_size := 2 }
      { statsImageCount := 0, imagesEnqueued := 0, imagesSaved := 0, statsBytesWritten := 0 }
      = imageWriterLoop (fun _ => none) 0
          { items := [], done := true, max_size := 2 }
          (writerBody (fun _ => none) { image := 0, sequenceNumber := 0 }
            { statsImageCount := 0, imagesEnqueued := 0, imagesSaved := 0, statsBytesWritten := 0 }) ∧
    imageWriterLoop (fun _ => none) 1
      { items := [], done := true, max_size := 2 }
      { statsImageCount := 0, imagesEnqueued := 0, imagesSaved := 0, statsBytesWritten := 0 }
      = ({ items := [], done := true, max_size := 2 },
         { statsImageCount := 0, imagesEnqueued := 0, imagesSaved := 0, statsBytesWritten := 0 }) :=
  ⟨(worker_continues_after_sink_failure (fun _ => some 10)
      { statsImageCount := 0, imagesEnqueued := 0, imagesSaved := 0, statsBytesWritten := 0 }
      { items := [], done := true, max_size := 2 }
      { items := [], done := true, max_size := 2 } { image := 0, sequenceNumber := 0 } 0 10).1 rfl,
   (worker_continues_after_sink_failure (fun _ => none)
      { statsImageCount := 0, imagesEnqueued := 0, imagesSaved := 0, statsBytesWritten := 0 }
      { items := [], done := true, max_size := 2 }
      { items := [], done := true, max_size := 2 } { image := 0, sequenceNumber := 0 } 0 0).2.1 rfl,
   (worker_continues_after_sink_failure (fun _ => none)
      { statsImageCount := 0, imagesEnqueued := 0, imagesSaved := 0, statsBytesWritten := 0 }
      { items := [{ image := 0, sequenceNumber := 0 }], done := true, max_size := 2 }
      { items := [], done := true, max_size := 2 } { image := 0, sequenceNumber := 0 } 0 0).2.2.1 rfl,
   (worker_continues_after_sink_failure (fun _ => none)
      { statsImageCount := 0, imagesEnqueued := 0, imagesSaved := 0, statsBytesWritten := 0 }
      { items := [], done := true, max_size := 2 }
      { items := [], done := true, max_size := 2 } { image := 0, sequenceNumber := 0 } 0 0).2.2.2
      (Or.inr rfl) rfl⟩

/-- Claim C10: `writeJPEG_turbo` rejects an empty image, an image whose
channel count is not 3, or an image whose depth is not `CV_8U`, returning
`false` without invoking the compressor and without creating a file; and
for a non-empty 8-bit 3-channel image the rejection guard is false, so
that branch is unreachable under the precondition. -/
theorem writeJPEG_rejects_invalid_images (image : MatInfo) (quality : Nat)
    (initOk compressOk : Bool) :
    (image.empty = true ∨ image.channels ≠ 3 ∨ image.depth ≠ CV_8U →
      writeJPEG_turbo image quality initOk compressOk
        = { invokedCompressor := false, createdFile := false, result := false }) ∧
    (image.empty = false → image.channels = 3 → image.depth = CV_8U →
      jpegRejects image = false) := by
  constructor
  · intro h
    have hrej : jpegRejects image = true := by
      rcases h with h | h | h
      · simp [jpegRejects, h]
      · simp [jpegRejects, bne_iff_ne, h]
      · simp [jpegRejects, bne_iff_ne, h]
    simp [writeJPEG_turbo, hrej]
  · intro h1 h2 h3
    simp [jpegRejects, h1, h2, h3]

/-- Witness for `writeJPEG_rejects_invalid_images`: an empty 3-channel
8-bit image is rejected with no compressor call and no file; a non-empty
3-channel 8-bit image does not satisfy the rejection guard. -/
theorem writeJPEG_rejects_invalid_images_witness :
    writeJPEG_turbo { empty := true, channels := 3, depth := 0 } 70 true true
      = { invokedCompressor := false, createdFile := false, result := false } ∧
    jpegRejects { empty := false, channels := 3, depth := 0 } = false :=
  ⟨(writeJPEG_rejects_invalid_images
      { empty := true, channels := 3, depth := 0 } 70 true true).1 (Or.inl rfl),
   (writeJPEG_rejects_invalid_images
      { empty := false, channels := 3, depth := 0 } 70 true true).2 rfl rfl rfl⟩
